import Mathlib

set_option maxRecDepth 4000

/-!
# Verification of the onchain-agent repository

Shallow embedding of the three Python source files:
* src/src/lib/gepaPaymentOptimizer.py — CostAwareEfficiencyMetric and
  create_mock_payment_dataset
* src/public/sdk/python/onchain_agent_sdk.py — AIAgentClient
* src/public/examples/quick-start.py — CostOptimizedAIAgent

Python floats are idealised as rationals (ℚ); exceptions are modelled with
Option / Except; the network is modelled as an explicit response value handed
to each request-issuing function, together with a log of the HTTP calls made.
-/

/-- Value of a list of decimal digit characters, most significant first.
Models the integer value of a digit run inside Python float parsing. -/
def digitsToNat (ds : List Char) : ℕ :=
  ds.foldl (fun n c => 10 * n + (c.toNat - 48)) 0

/-- Optional sign consumed from the front of a character list; returns the
sign as ±1 and the remaining characters. -/
def takeSign (cs : List Char) : ℤ × List Char :=
  match cs with
  | '+' :: r => (1, r)
  | '-' :: r => (-1, r)
  | r => (1, r)

/-- Exponent suffix of a Python float literal: an optional sign followed by a
nonempty digit run, consuming the whole input. -/
def parseSignedNat (cs : List Char) : Option ℤ :=
  let p := takeSign cs
  let ds := p.2.takeWhile Char.isDigit
  let rest := p.2.dropWhile Char.isDigit
  if ds.isEmpty then none
  else if rest.isEmpty then some (p.1 * (digitsToNat ds : ℤ))
  else none

/-- Exponent part of a Python float literal: either absent (exponent 0) or an
e/E followed by a signed digit run. -/
def parseExpPart (cs : List Char) : Option ℤ :=
  match cs with
  | [] => some 0
  | 'e' :: r => parseSignedNat r
  | 'E' :: r => parseSignedNat r
  | _ => none

/-- Surrounding-whitespace removal performed by Python float() on its
argument. -/
def trimChars (cs : List Char) : List Char :=
  ((cs.dropWhile Char.isWhitespace).reverse.dropWhile Char.isWhitespace).reverse

/-- Power of ten with an integer exponent, the scale factor named by the
e/E suffix of a float literal. -/
def expFactor : ℤ → ℚ
  | Int.ofNat n => (10 : ℚ) ^ n
  | Int.negSucc n => 1 / (10 : ℚ) ^ (n + 1)

/-- Models Python's built-in float() applied to a string, idealised over ℚ:
optional surrounding whitespace, an optional sign, a decimal mantissa
(digits, with an optional fractional part introduced by a dot, at least one
digit overall) and an optional e/E exponent. Returns none exactly when
Python's float() raises ValueError on such inputs (the model excludes the
non-finite spellings inf/infinity/nan and digit-group underscores, which are
irrational or never produced as savings figures). -/
def parsePyFloat (s : String) : Option ℚ :=
  let cs := trimChars s.data
  let p := takeSign cs
  let intPart := p.2.takeWhile Char.isDigit
  let rest1 := p.2.dropWhile Char.isDigit
  let q : List Char × List Char :=
    match rest1 with
    | '.' :: r => (r.takeWhile Char.isDigit, r.dropWhile Char.isDigit)
    | r => ([], r)
  let fracPart := q.1
  let rest2 := q.2
  if intPart.isEmpty ∧ fracPart.isEmpty then none
  else
    match parseExpPart rest2 with
    | none => none
    | some e =>
        let mantissa : ℚ :=
          (digitsToNat intPart : ℚ) + (digitsToNat fracPart : ℚ) / (10 : ℚ) ^ fracPart.length
        some ((p.1 : ℚ) * mantissa * expFactor e)

/-- Models prediction.total_savings.replace('$', '').replace(',', ''):
deletion of every dollar sign and comma. -/
def stripCurrency (s : String) : String :=
  String.mk (s.data.filter (fun c => !(c == '$' || c == ',')))

/-- Shallow model of the dspy.Prediction object as seen by the metric:
total_savings is the string attribute (none models a missing or non-string
attribute, whose access or .replace call raises AttributeError), and
serialized models str(prediction), whose length is the token count. -/
structure Prediction where
  total_savings : Option String
  serialized : String
deriving DecidableEq, Repr

namespace CostAwareEfficiencyMetric

/-- Models CostAwareEfficiencyMetric.__call__ (gepaPaymentOptimizer.py,
lines 85–112). target_savings_threshold is the constructor argument
(default 0.3); target_savings is float(example.get('target_savings', 0)),
taking examples whose stored value is numeric. The try/except that maps
ValueError/AttributeError to 0.0 appears as the two none branches. -/
def call (target_savings_threshold target_savings : ℚ) (prediction : Prediction) : ℚ :=
  match prediction.total_savings with
  | none => 0
  | some str =>
    match parsePyFloat (stripCurrency str) with
    | none => 0
    | some savings =>
      let savings_accuracy := min (savings / max target_savings 1) 1
      let token_count : ℚ := (prediction.serialized.length : ℚ)
      let token_efficiency := 1 / (1 + token_count / 1000)
      let cost_efficiency := savings_accuracy * 0.7 + token_efficiency * 0.3
      let cost_efficiency' :=
        if target_savings * target_savings_threshold ≤ savings then cost_efficiency + 0.2
        else cost_efficiency
      min cost_efficiency' 1

end CostAwareEfficiencyMetric

example : parsePyFloat "50" = some 50 := by with_unfolding_all decide
example : parsePyFloat "-100" = some (-100) := by with_unfolding_all decide
example : parsePyFloat "12.5" = some (25/2) := by with_unfolding_all decide
example : parsePyFloat "1e2" = some 100 := by with_unfolding_all decide
example : parsePyFloat "2e-2" = some (1/50) := by with_unfolding_all decide
example : parsePyFloat "abc" = none := by with_unfolding_all decide
example : parsePyFloat "" = none := by with_unfolding_all decide
example : parsePyFloat "." = none := by with_unfolding_all decide
example : parsePyFloat ".5" = some (1/2) := by with_unfolding_all decide
example : parsePyFloat "5." = some 5 := by with_unfolding_all decide
example : parsePyFloat " 50 " = some 50 := by with_unfolding_all decide
example : parsePyFloat "5x" = none := by with_unfolding_all decide
example : stripCurrency "$1,234.5" = "1234.5" := by with_unfolding_all decide
example : CostAwareEfficiencyMetric.call 0.3 50 ⟨some "$50", ""⟩ = 1 := by
  with_unfolding_all decide
example : CostAwareEfficiencyMetric.call 0.3 50 ⟨some "-100", ""⟩ = -11/10 := by
  with_unfolding_all decide
example : CostAwareEfficiencyMetric.call 0.3 50 ⟨some "abc", ""⟩ = 0 := by
  with_unfolding_all decide
example : CostAwareEfficiencyMetric.call 0.3 50 ⟨none, ""⟩ = 0 := by
  with_unfolding_all decide

/-- C1: with a prediction whose total_savings string parses (after stripping
dollar signs and commas) to s, an example whose target_savings is t, n the
length of the serialized prediction and configurable threshold th,
CostAwareEfficiencyMetric.__call__ returns exactly
min(0.7 * min(s / max(t, 1), 1) + 0.3 * (1 / (1 + n/1000))
    + (0.2 if s >= t * th else 0), 1). -/
theorem metric_call_formula (th t s : ℚ) (pred : Prediction) (str : String)
    (hstr : pred.total_savings = some str)
    (hparse : parsePyFloat (stripCurrency str) = some s) :
    CostAwareEfficiencyMetric.call th t pred =
      min (0.7 * min (s / max t 1) 1
            + 0.3 * (1 / (1 + (pred.serialized.length : ℚ) / 1000))
            + (if t * th ≤ s then (0.2 : ℚ) else 0)) 1 := by
  simp only [CostAwareEfficiencyMetric.call, hstr, hparse]
  split_ifs with h
  · congr 1
    ring
  · congr 1
    ring

/-- C1 witness: the formula instantiated at threshold 0.3, target 50,
prediction rendering "$50" with empty serialization. -/
theorem metric_call_formula_witness :
    CostAwareEfficiencyMetric.call 0.3 50 ⟨some "$50", ""⟩ =
      min (0.7 * min ((50 : ℚ) / max 50 1) 1
            + 0.3 * (1 / (1 + (("" : String).length : ℚ) / 1000))
            + (if (50 : ℚ) * 0.3 ≤ 50 then (0.2 : ℚ) else 0)) 1 :=
  metric_call_formula 0.3 50 50 ⟨some "$50", ""⟩ "$50" rfl (by with_unfolding_all decide)

/-- C2 counterexample: a prediction whose total_savings parses to the
negative value -100 against target 50 scores -1.1, outside [0, 1] — the
final min only clamps from above, so the claimed lower bound fails. -/
theorem metric_call_not_lower_bounded :
    ¬ (0 ≤ CostAwareEfficiencyMetric.call 0.3 50 ⟨some "-100", ""⟩ ∧
       CostAwareEfficiencyMetric.call 0.3 50 ⟨some "-100", ""⟩ ≤ 1) := by
  with_unfolding_all decide

/-- C2 amended: the score lies in [0, 1] for every prediction whose
total_savings either fails to parse or parses to a nonnegative value;
for negative parsed savings only the upper bound survives. -/
theorem metric_call_bounded (th t : ℚ) (pred : Prediction)
    (hnn : ∀ str s, pred.total_savings = some str →
      parsePyFloat (stripCurrency str) = some s → 0 ≤ s) :
    0 ≤ CostAwareEfficiencyMetric.call th t pred ∧
      CostAwareEfficiencyMetric.call th t pred ≤ 1 := by
  cases hts : pred.total_savings with
  | none =>
    simp [CostAwareEfficiencyMetric.call, hts]
  | some str =>
    cases hp : parsePyFloat (stripCurrency str) with
    | none =>
      simp [CostAwareEfficiencyMetric.call, hts, hp]
    | some s =>
      have hs : 0 ≤ s := hnn str s hts hp
      have hM : (0 : ℚ) < max t 1 := lt_of_lt_of_le one_pos (le_max_right t 1)
      have hsa0 : 0 ≤ min (s / max t 1) 1 := le_min (div_nonneg hs hM.le) one_pos.le
      have hsa1 : min (s / max t 1) 1 ≤ 1 := min_le_right _ _
      have hden : (0 : ℚ) < 1 + (pred.serialized.length : ℚ) / 1000 := by positivity
      have hte0 : 0 ≤ 1 / (1 + (pred.serialized.length : ℚ) / 1000) := by positivity
      have hte1 : 1 / (1 + (pred.serialized.length : ℚ) / 1000) ≤ 1 := by
        rw [div_le_one hden]
        have : (0 : ℚ) ≤ (pred.serialized.length : ℚ) / 1000 := by positivity
        linarith
      simp only [CostAwareEfficiencyMetric.call, hts, hp]
      refine ⟨le_min ?_ one_pos.le, min_le_right _ _⟩
      split_ifs <;> nlinarith

/-- C2 witness: bounds instantiated at threshold 0.3, target 50 and a
prediction rendering "$50". -/
theorem metric_call_bounded_witness :
    0 ≤ CostAwareEfficiencyMetric.call 0.3 50 ⟨some "$50", ""⟩ ∧
      CostAwareEfficiencyMetric.call 0.3 50 ⟨some "$50", ""⟩ ≤ 1 :=
  metric_call_bounded 0.3 50 ⟨some "$50", ""⟩ (by
    intro str s hstr hp
    cases hstr
    rw [show parsePyFloat (stripCurrency "$50") = some 50 by with_unfolding_all decide]
      at hp
    cases hp
    norm_num)

/-- C3: whenever extracting or parsing total_savings fails (missing or
non-string attribute, or a string float() rejects), __call__ returns
exactly 0.0 — the try/except swallows the exception. -/
theorem metric_call_zero_on_failure (th t : ℚ) (pred : Prediction)
    (h : pred.total_savings = none ∨
      ∃ str, pred.total_savings = some str ∧ parsePyFloat (stripCurrency str) = none) :
    CostAwareEfficiencyMetric.call th t pred = 0 := by
  rcases h with h | ⟨str, h1, h2⟩
  · simp [CostAwareEfficiencyMetric.call, h]
  · simp [CostAwareEfficiencyMetric.call, h1, h2]

/-- C3 witness: the malformed total_savings string "abc" scores 0. -/
theorem metric_call_zero_on_failure_witness :
    CostAwareEfficiencyMetric.call 0.3 50 ⟨some "abc", ""⟩ = 0 :=
  metric_call_zero_on_failure 0.3 50 ⟨some "abc", ""⟩
    (Or.inr ⟨"abc", rfl, by with_unfolding_all decide⟩)

/-- C4: with target_savings and the serialized length fixed, the score is
monotone non-decreasing in the parsed savings value. -/
theorem metric_call_monotone_in_savings (th t : ℚ) (ser str1 str2 : String) (s1 s2 : ℚ)
    (h1 : parsePyFloat (stripCurrency str1) = some s1)
    (h2 : parsePyFloat (stripCurrency str2) = some s2)
    (hle : s1 ≤ s2) :
    CostAwareEfficiencyMetric.call th t ⟨some str1, ser⟩ ≤
      CostAwareEfficiencyMetric.call th t ⟨some str2, ser⟩ := by
  simp only [CostAwareEfficiencyMetric.call, h1, h2]
  have hM : (0 : ℚ) < max t 1 := lt_of_lt_of_le one_pos (le_max_right t 1)
  have hdiv : s1 / max t 1 ≤ s2 / max t 1 := div_le_div_of_nonneg_right hle hM.le
  have hsa : min (s1 / max t 1) 1 ≤ min (s2 / max t 1) 1 := min_le_min hdiv le_rfl
  split_ifs with hb1 hb2 hb2
  · exact min_le_min (by linarith) le_rfl
  · exact absurd (le_trans hb1 hle) hb2
  · exact min_le_min (by linarith) le_rfl
  · exact min_le_min (by linarith) le_rfl

/-- C4 witness: parsed savings 1 against parsed savings 2, same target 50
and serialization. -/
theorem metric_call_monotone_in_savings_witness :
    CostAwareEfficiencyMetric.call 0.3 50 ⟨some "1", ""⟩ ≤
      CostAwareEfficiencyMetric.call 0.3 50 ⟨some "2", ""⟩ :=
  metric_call_monotone_in_savings 0.3 50 "" "1" "2" 1 2
    (by with_unfolding_all decide) (by with_unfolding_all decide) (by norm_num)

/-- Payment scenario record of gepaPaymentOptimizer.py: the dict keys of the
seed scenarios and their generated variations. -/
structure Scenario where
  amount : ℚ
  currency : String
  invoice_details : String
  query_cost : ℚ
  user_balance : ℚ
  urgency : String
  target_savings : ℚ
deriving DecidableEq, Repr, Inhabited

/-- The five hand-authored seed scenarios (gepaPaymentOptimizer.py,
lines 122–168), in source order. -/
def seedScenarios : List Scenario :=
  [ ⟨1000, "USD", "Vendor invoice for software licensing", 0.05, 5000, "low", 50⟩,
    ⟨500, "USD", "Marketing services invoice", 0.03, 2000, "medium", 25⟩,
    ⟨2000, "USD", "Cloud infrastructure invoice", 0.08, 10000, "high", 100⟩,
    ⟨150, "USD", "API usage invoice", 0.02, 1000, "low", 15⟩,
    ⟨3000, "USD", "Enterprise software license", 0.12, 15000, "medium", 150⟩ ]

/-- One loop body iteration of create_mock_payment_dataset: scenario.copy()
followed by in-place multiplication of amount, query_cost and target_savings
by the three uniform draws u. -/
def makeVariation (scenario : Scenario) (u : ℚ × ℚ × ℚ) : Scenario :=
  { scenario with
    amount := scenario.amount * u.1
    query_cost := scenario.query_cost * u.2.1
    target_savings := scenario.target_savings * u.2.2 }

/-- Models create_mock_payment_dataset (gepaPaymentOptimizer.py,
lines 114–180). The global numpy random stream is made explicit: draws i is
the triple of np.random.uniform results consumed by the i-th variation
(amount factor, query_cost factor, target_savings factor); the nested loops
emit 20 variations per seed scenario in seed order. -/
def create_mock_payment_dataset (draws : ℕ → ℚ × ℚ × ℚ) : List Scenario :=
  (seedScenarios.enum).flatMap (fun p =>
    (List.range 20).map (fun k => makeVariation p.2 (draws (20 * p.1 + k))))

/-- The generated dataset, written as a single map over the flat variation
index; variation i is derived from seed i / 20. -/
theorem dataset_closed_form (draws : ℕ → ℚ × ℚ × ℚ) :
    create_mock_payment_dataset draws =
      (List.range 100).map
        (fun i => makeVariation (seedScenarios.getD (i / 20) default) (draws i)) := by
  rfl

/-- The ranges np.random.uniform is called with: [0.8, 1.2] for the amount
and target_savings factors, [0.9, 1.1] for the query_cost factor. -/
def drawInRange (u : ℚ × ℚ × ℚ) : Prop :=
  (0.8 ≤ u.1 ∧ u.1 ≤ 1.2) ∧ (0.9 ≤ u.2.1 ∧ u.2.1 ≤ 1.1) ∧ (0.8 ≤ u.2.2 ∧ u.2.2 ≤ 1.2)

/-- Every seed scenario has nonnegative amount, query_cost and
target_savings. -/
theorem seed_fields_nonneg :
    ∀ sc ∈ seedScenarios, 0 ≤ sc.amount ∧ 0 ≤ sc.query_cost ∧ 0 ≤ sc.target_savings := by
  intro sc h
  fin_cases h <;> refine ⟨by norm_num, by norm_num, by norm_num⟩

/-- A single variation of a seed with nonnegative perturbed fields stays
within the multiplicative bounds of its draw ranges. -/
theorem makeVariation_bounds (sc : Scenario) (u : ℚ × ℚ × ℚ) (hu : drawInRange u)
    (ha : 0 ≤ sc.amount) (hq : 0 ≤ sc.query_cost) (ht : 0 ≤ sc.target_savings) :
    0.8 * sc.amount ≤ (makeVariation sc u).amount ∧
      (makeVariation sc u).amount ≤ 1.2 * sc.amount ∧
      0.9 * sc.query_cost ≤ (makeVariation sc u).query_cost ∧
      (makeVariation sc u).query_cost ≤ 1.1 * sc.query_cost ∧
      0.8 * sc.target_savings ≤ (makeVariation sc u).target_savings ∧
      (makeVariation sc u).target_savings ≤ 1.2 * sc.target_savings := by
  obtain ⟨⟨h1, h2⟩, ⟨h3, h4⟩, h5, h6⟩ := hu
  simp only [makeVariation]
  refine ⟨?_, ?_, ?_, ?_, ?_, ?_⟩ <;> nlinarith

/-- There are five seed scenarios. -/
theorem seedScenarios_length : seedScenarios.length = 5 := rfl

/-- C5: every scenario the generator produces stays within the stated
multiplicative bounds of the seed scenario it was derived from, for every
possible sequence of in-range uniform draws. -/
theorem dataset_variation_bounds (draws : ℕ → ℚ × ℚ × ℚ)
    (hd : ∀ i, drawInRange (draws i)) (v : Scenario)
    (hv : v ∈ create_mock_payment_dataset draws) :
    ∃ sc ∈ seedScenarios,
      0.8 * sc.amount ≤ v.amount ∧ v.amount ≤ 1.2 * sc.amount ∧
      0.9 * sc.query_cost ≤ v.query_cost ∧ v.query_cost ≤ 1.1 * sc.query_cost ∧
      0.8 * sc.target_savings ≤ v.target_savings ∧
      v.target_savings ≤ 1.2 * sc.target_savings := by
  rw [dataset_closed_form, List.mem_map] at hv
  obtain ⟨i, hi, rfl⟩ := hv
  rw [List.mem_range] at hi
  have h5 : i / 20 < seedScenarios.length := by
    rw [seedScenarios_length]
    omega
  have hget : seedScenarios.getD (i / 20) default = seedScenarios.get ⟨i / 20, h5⟩ := by
    rw [List.getD_eq_getElem?_getD, List.getElem?_eq_getElem h5]
    rfl
  have hmem : seedScenarios.get ⟨i / 20, h5⟩ ∈ seedScenarios := List.get_mem _ _ _
  obtain ⟨ha, hq, ht⟩ := seed_fields_nonneg _ hmem
  exact ⟨_, hmem, by rw [← hget] at ha hq ht ⊢; exact makeVariation_bounds _ _ (hd i) ha hq ht⟩

/-- C5 witness: the all-ones draw stream and the first generated scenario. -/
theorem dataset_variation_bounds_witness :
    ∃ sc ∈ seedScenarios,
      0.8 * sc.amount ≤ (makeVariation (seedScenarios.getD 0 default) (1, 1, 1)).amount ∧
      (makeVariation (seedScenarios.getD 0 default) (1, 1, 1)).amount ≤ 1.2 * sc.amount ∧
      0.9 * sc.query_cost ≤ (makeVariation (seedScenarios.getD 0 default) (1, 1, 1)).query_cost ∧
      (makeVariation (seedScenarios.getD 0 default) (1, 1, 1)).query_cost ≤ 1.1 * sc.query_cost ∧
      0.8 * sc.target_savings ≤
        (makeVariation (seedScenarios.getD 0 default) (1, 1, 1)).target_savings ∧
      (makeVariation (seedScenarios.getD 0 default) (1, 1, 1)).target_savings ≤
        1.2 * sc.target_savings :=
  dataset_variation_bounds (fun _ => (1, 1, 1))
    (fun _ => ⟨⟨by norm_num, by norm_num⟩, ⟨by norm_num, by norm_num⟩, by norm_num, by norm_num⟩)
    _
    (by rw [dataset_closed_form]
        exact List.mem_map.mpr ⟨0, List.mem_range.mpr (by norm_num), rfl⟩)

/-- C6: the generator takes no input besides the random stream and returns
exactly 100 scenarios, 20 consecutive variants per seed in seed order; the
variant at flat index 20*j + k keeps seed j's currency, invoice_details,
user_balance and urgency unchanged, and perturbs only amount, query_cost and
target_savings (by its own draw triple). -/
theorem dataset_shape (draws : ℕ → ℚ × ℚ × ℚ) :
    (create_mock_payment_dataset draws).length = 100 ∧
    ∀ j k : ℕ, j < 5 → k < 20 →
      ∃ h : 20 * j + k < (create_mock_payment_dataset draws).length,
        ((create_mock_payment_dataset draws).get ⟨20 * j + k, h⟩).currency =
            (seedScenarios.getD j default).currency ∧
        ((create_mock_payment_dataset draws).get ⟨20 * j + k, h⟩).invoice_details =
            (seedScenarios.getD j default).invoice_details ∧
        ((create_mock_payment_dataset draws).get ⟨20 * j + k, h⟩).user_balance =
            (seedScenarios.getD j default).user_balance ∧
        ((create_mock_payment_dataset draws).get ⟨20 * j + k, h⟩).urgency =
            (seedScenarios.getD j default).urgency ∧
        ((create_mock_payment_dataset draws).get ⟨20 * j + k, h⟩).amount =
            (seedScenarios.getD j default).amount * (draws (20 * j + k)).1 ∧
        ((create_mock_payment_dataset draws).get ⟨20 * j + k, h⟩).query_cost =
            (seedScenarios.getD j default).query_cost * (draws (20 * j + k)).2.1 ∧
        ((create_mock_payment_dataset draws).get ⟨20 * j + k, h⟩).target_savings =
            (seedScenarios.getD j default).target_savings * (draws (20 * j + k)).2.2 := by
  have hlen : (create_mock_payment_dataset draws).length = 100 := by
    rw [dataset_closed_form, List.length_map, List.length_range]
  refine ⟨hlen, ?_⟩
  intro j k hj hk
  have hidx : 20 * j + k < (create_mock_payment_dataset draws).length := by omega
  refine ⟨hidx, ?_⟩
  have hdiv : (20 * j + k) / 20 = j := by omega
  have hget : (create_mock_payment_dataset draws).get ⟨20 * j + k, hidx⟩ =
      makeVariation (seedScenarios.getD j default) (draws (20 * j + k)) := by
    rw [List.get_eq_getElem, List.getElem_of_eq (dataset_closed_form draws),
      List.getElem_map, List.getElem_range, hdiv]
  rw [hget]
  exact ⟨rfl, rfl, rfl, rfl, rfl, rfl, rfl⟩

/-- C6 witness: the all-ones draw stream at seed 0, variant 0. -/
theorem dataset_shape_witness :
    (create_mock_payment_dataset (fun _ => (1, 1, 1))).length = 100 ∧
    ∃ h : 20 * 0 + 0 < (create_mock_payment_dataset (fun _ => (1, 1, 1))).length,
      ((create_mock_payment_dataset (fun _ => (1, 1, 1))).get ⟨20 * 0 + 0, h⟩).currency =
          (seedScenarios.getD 0 default).currency ∧
      ((create_mock_payment_dataset (fun _ => (1, 1, 1))).get ⟨20 * 0 + 0, h⟩).invoice_details =
          (seedScenarios.getD 0 default).invoice_details ∧
      ((create_mock_payment_dataset (fun _ => (1, 1, 1))).get ⟨20 * 0 + 0, h⟩).user_balance =
          (seedScenarios.getD 0 default).user_balance ∧
      ((create_mock_payment_dataset (fun _ => (1, 1, 1))).get ⟨20 * 0 + 0, h⟩).urgency =
          (seedScenarios.getD 0 default).urgency ∧
      ((create_mock_payment_dataset (fun _ => (1, 1, 1))).get ⟨20 * 0 + 0, h⟩).amount =
          (seedScenarios.getD 0 default).amount * 1 ∧
      ((create_mock_payment_dataset (fun _ => (1, 1, 1))).get ⟨20 * 0 + 0, h⟩).query_cost =
          (seedScenarios.getD 0 default).query_cost * 1 ∧
      ((create_mock_payment_dataset (fun _ => (1, 1, 1))).get ⟨20 * 0 + 0, h⟩).target_savings =
          (seedScenarios.getD 0 default).target_savings * 1 :=
  ⟨(dataset_shape (fun _ => (1, 1, 1))).1,
   (dataset_shape (fun _ => (1, 1, 1))).2 0 0 (by norm_num) (by norm_num)⟩

/-- JSON envelope of an API response as _make_request reads it:
result.get('success', False) and result.get('error', ...). A none field
models an absent key. -/
structure ApiBody where
  success : Option Bool
  error : Option String
deriving DecidableEq, Repr

/-- Errors AIAgentClient methods raise: ValueError or
requests.RequestException. -/
inductive SdkError where
  | valueError (msg : String)
  | requestException (msg : String)
deriving DecidableEq, Repr

/-- Outcome of the one HTTP exchange _make_request attempts: a timeout, a
connection error, a non-2xx status (whose body may or may not be JSON with
an error field), or a 2xx response with a JSON body. -/
inductive RequestOutcome where
  | timeout
  | connectionError
  | httpError (status : ℕ) (reason : String) (body : Option ApiBody)
  | ok (body : ApiBody)
deriving DecidableEq, Repr

/-- The JSON payload the POST methods marshal: action plus the optional
fields each method fills in. -/
structure PostData where
  action : String
  prompt : Option String
  message : Option String
  walletAddress : Option String
  provider : Option String
  maxCost : Option ℚ
  signature : Option String
deriving DecidableEq, Repr

/-- One HTTP request as issued by the session: method, endpoint (query
string included; percent-encoding of the wallet address is abstracted away),
and the JSON payload for POSTs. -/
structure HttpCall where
  method : String
  endpoint : String
  data : Option PostData
deriving DecidableEq, Repr

/-- Python truthiness test applied to an optional string parameter:
None and the empty string are falsy. -/
def falsy (s : Option String) : Bool :=
  (s.getD "").isEmpty

namespace AIAgentClient

/-- Models AIAgentClient._make_request (onchain_agent_sdk.py, lines 43–87):
always issues exactly one HTTP request, then maps the outcome to either the
parsed body or a raised error. A 2xx body whose success field is absent or
false raises ValueError with the body's error string, defaulting to
'Unknown API error'. -/
def make_request (endpoint method : String) (data : Option PostData)
    (outcome : RequestOutcome) : List HttpCall × Except SdkError ApiBody :=
  ([⟨method, endpoint, data⟩],
    match outcome with
    | .timeout => .error (.requestException "Request timeout: API did not respond in time")
    | .connectionError => .error (.requestException "Connection error: Unable to connect to API")
    | .httpError status reason body =>
        match body with
        | some b => .error (.valueError (b.error.getD ("HTTP " ++ toString status)))
        | none => .error (.valueError ("HTTP " ++ toString status ++ ": " ++ reason))
    | .ok result =>
        if result.success.getD false then .ok result
        else .error (.valueError (result.error.getD "Unknown API error")))

/-- Models AIAgentClient.optimize (lines 89–121): validates prompt and
wallet_address before any request, then POSTs the optimize action; provider
is included only when truthy, maxCost only when not None. -/
def optimize (prompt wallet_address provider : Option String) (max_cost : Option ℚ)
    (outcome : RequestOutcome) : List HttpCall × Except SdkError ApiBody :=
  if falsy prompt then ([], .error (.valueError "prompt is required"))
  else if falsy wallet_address then ([], .error (.valueError "wallet_address is required"))
  else
    make_request "" "POST"
      (some ⟨"optimize", prompt, none, wallet_address,
        if falsy provider then none else provider, max_cost, none⟩)
      outcome

/-- Models AIAgentClient.chat (lines 123–148): validates message and
wallet_address before any request, then POSTs the chat action. -/
def chat (message wallet_address : Option String) (outcome : RequestOutcome) :
    List HttpCall × Except SdkError ApiBody :=
  if falsy message then ([], .error (.valueError "message is required"))
  else if falsy wallet_address then ([], .error (.valueError "wallet_address is required"))
  else make_request "" "POST" (some ⟨"chat", none, message, wallet_address, none, none, none⟩) outcome

/-- Models AIAgentClient.connect_wallet (lines 150–175). -/
def connect_wallet (wallet_address signature : Option String) (outcome : RequestOutcome) :
    List HttpCall × Except SdkError ApiBody :=
  if falsy wallet_address then ([], .error (.valueError "wallet_address is required"))
  else
    make_request "" "POST"
      (some ⟨"wallet", none, none, wallet_address, none, none,
        if falsy signature then none else signature⟩)
      outcome

/-- Models AIAgentClient.get_analytics (lines 177–194). -/
def get_analytics (wallet_address : Option String) (outcome : RequestOutcome) :
    List HttpCall × Except SdkError ApiBody :=
  if falsy wallet_address then ([], .error (.valueError "wallet_address is required"))
  else
    make_request ("?action=analytics&walletAddress=" ++ wallet_address.getD "") "GET" none outcome

/-- Models AIAgentClient.get_providers (lines 196–206). -/
def get_providers (outcome : RequestOutcome) : List HttpCall × Except SdkError ApiBody :=
  make_request "?action=providers" "GET" none outcome

/-- Models AIAgentClient.get_info (lines 208–218). -/
def get_info (outcome : RequestOutcome) : List HttpCall × Except SdkError ApiBody :=
  make_request "?action=info" "GET" none outcome

end AIAgentClient

/-- C7: a 2xx response whose JSON body carries success = false makes
_make_request — and with it every method that delegates to it, given
parameters that pass validation — raise ValueError with the body's error
string, defaulting to 'Unknown API error' when the error field is absent. -/
theorem make_request_success_false (body : ApiBody) (h : body.success = some false) :
    (∀ ep m d, (AIAgentClient.make_request ep m d (.ok body)).2 =
        .error (.valueError (body.error.getD "Unknown API error"))) ∧
    (∀ p w pr mc, falsy p = false → falsy w = false →
      (AIAgentClient.optimize p w pr mc (.ok body)).2 =
        .error (.valueError (body.error.getD "Unknown API error"))) ∧
    (∀ m w, falsy m = false → falsy w = false →
      (AIAgentClient.chat m w (.ok body)).2 =
        .error (.valueError (body.error.getD "Unknown API error"))) ∧
    (∀ w sg, falsy w = false →
      (AIAgentClient.connect_wallet w sg (.ok body)).2 =
        .error (.valueError (body.error.getD "Unknown API error"))) ∧
    (∀ w, falsy w = false →
      (AIAgentClient.get_analytics w (.ok body)).2 =
        .error (.valueError (body.error.getD "Unknown API error"))) ∧
    (AIAgentClient.get_providers (.ok body)).2 =
      .error (.valueError (body.error.getD "Unknown API error")) ∧
    (AIAgentClient.get_info (.ok body)).2 =
      .error (.valueError (body.error.getD "Unknown API error")) := by
  have hbase : ∀ ep m d, (AIAgentClient.make_request ep m d (.ok body)).2 =
      .error (.valueError (body.error.getD "Unknown API error")) := by
    intro ep m d
    simp [AIAgentClient.make_request, h]
  refine ⟨hbase, ?_, ?_, ?_, ?_, hbase _ _ _, hbase _ _ _⟩
  · intro p w pr mc hp hw
    simp [AIAgentClient.optimize, hp, hw, hbase]
  · intro m w hm hw
    simp [AIAgentClient.chat, hm, hw, hbase]
  · intro w sg hw
    simp [AIAgentClient.connect_wallet, hw, hbase]
  · intro w hw
    simp [AIAgentClient.get_analytics, hw, hbase]

/-- C7 witness: the body from the spec's example, success false with error
"bad wallet", through _make_request and chat. -/
theorem make_request_success_false_witness :
    (AIAgentClient.make_request "" "POST" none (.ok ⟨some false, some "bad wallet"⟩)).2 =
      .error (.valueError "bad wallet") ∧
    (AIAgentClient.chat (some "hi") (some "0x1") (.ok ⟨some false, some "bad wallet"⟩)).2 =
      .error (.valueError "bad wallet") :=
  ⟨(make_request_success_false ⟨some false, some "bad wallet"⟩ rfl).1 "" "POST" none,
   (make_request_success_false ⟨some false, some "bad wallet"⟩ rfl).2.2.1
     (some "hi") (some "0x1") rfl rfl⟩

/-- C8: optimize with a missing or empty prompt or wallet_address, and chat
with a missing or empty message or wallet_address, raise ValueError naming
the missing parameter and issue no HTTP request (the call log is empty). -/
theorem validation_raises_before_request (p w m pr : Option String) (mc : Option ℚ)
    (outcome : RequestOutcome) :
    (falsy p = true → AIAgentClient.optimize p w pr mc outcome =
      ([], .error (.valueError "prompt is required"))) ∧
    (falsy p = false → falsy w = true → AIAgentClient.optimize p w pr mc outcome =
      ([], .error (.valueError "wallet_address is required"))) ∧
    (falsy m = true → AIAgentClient.chat m w outcome =
      ([], .error (.valueError "message is required"))) ∧
    (falsy m = false → falsy w = true → AIAgentClient.chat m w outcome =
      ([], .error (.valueError "wallet_address is required"))) := by
  refine ⟨?_, ?_, ?_, ?_⟩
  · intro hp
    simp [AIAgentClient.optimize, hp]
  · intro hp hw
    simp [AIAgentClient.optimize, hp, hw]
  · intro hm
    simp [AIAgentClient.chat, hm]
  · intro hm hw
    simp [AIAgentClient.chat, hm, hw]

/-- C8 witness: a missing prompt for optimize and an empty message for chat,
each against a live-looking outcome that is never consulted. -/
theorem validation_raises_before_request_witness :
    AIAgentClient.optimize none (some "0x1") none none (.ok ⟨some true, none⟩) =
      ([], .error (.valueError "prompt is required")) ∧
    AIAgentClient.chat (some "") (some "0x1") (.ok ⟨some true, none⟩) =
      ([], .error (.valueError "message is required")) :=
  ⟨(validation_raises_before_request none (some "0x1") (some "") none none
      (.ok ⟨some true, none⟩)).1 rfl,
   (validation_raises_before_request none (some "0x1") (some "") none none
      (.ok ⟨some true, none⟩)).2.2.1 rfl⟩

/-- Client-side usage totals of CostOptimizedAIAgent, in __init__ order
(quick-start.py, lines 12–17). -/
structure AgentState where
  total_cost : ℚ
  total_saved : ℚ
  total_calls : ℕ
deriving DecidableEq, Repr

/-- The data object of a successful optimize response as
CostOptimizedAIAgent.chat reads it; a value of this type models a complete
data dict (every key the code indexes is present). -/
structure ChatData where
  optimizedResponse : String
  optimizedCost : ℚ
  savings : ℚ
  recommendedProvider : String
deriving DecidableEq, Repr

/-- Envelope of the optimize response body: result['success'] (none models
an absent key, whose access raises KeyError) and result['data'] (none models
a missing or incomplete data dict). -/
structure OptimizeEnvelope where
  success : Option Bool
  data : Option ChatData
deriving DecidableEq, Repr

/-- The dict CostOptimizedAIAgent.chat returns: either the
message/cost/saved/provider record or {'error': msg}. -/
inductive ChatReturn where
  | result (message : String) (cost saved : ℚ) (provider : String)
  | error (msg : String)
deriving DecidableEq, Repr

namespace CostOptimizedAIAgent

/-- The freshly constructed agent's totals (quick-start.py __init__):
all zero. -/
def init : AgentState := ⟨0, 0, 0⟩

/-- Models CostOptimizedAIAgent.chat (quick-start.py, lines 19–51). The HTTP
response is the status code plus the decoded JSON body (none when the body
is not JSON; on a non-200 status the body is never decoded). Except models a
propagating Python exception; the updated totals are threaded explicitly. -/
def chat (st : AgentState) (status : ℕ) (body : Option OptimizeEnvelope) :
    Except String (AgentState × ChatReturn) :=
  if status = 200 then
    match body with
    | none => .error "response body is not valid JSON"
    | some result =>
      match result.success with
      | none => .error "KeyError: success"
      | some true =>
        match result.data with
        | none => .error "KeyError: data"
        | some d =>
          let st' : AgentState :=
            ⟨st.total_cost + d.optimizedCost, st.total_saved + d.savings, st.total_calls + 1⟩
          .ok (st', .result d.optimizedResponse d.optimizedCost d.savings d.recommendedProvider)
      | some false => .ok (st, .error "Failed to get response")
  else .ok (st, .error "Failed to get response")

/-- The report dict CostOptimizedAIAgent.get_savings_report returns. -/
structure SavingsReport where
  total_calls : ℕ
  total_cost : ℚ
  total_saved : ℚ
  savings_percentage : ℚ
  effective_cost : ℚ
deriving DecidableEq, Repr

/-- Models CostOptimizedAIAgent.get_savings_report (quick-start.py,
lines 53–66): total_spent = total_cost + total_saved, and the percentage is
guarded by total_spent > 0. -/
def get_savings_report (st : AgentState) : SavingsReport :=
  let total_spent := st.total_cost + st.total_saved
  let savings_percentage := if total_spent > 0 then st.total_saved / total_spent * 100 else 0
  ⟨st.total_calls, st.total_cost, st.total_saved, savings_percentage, st.total_cost⟩

end CostOptimizedAIAgent

/-- C9: a 200 response with success true and complete data advances
total_calls by 1 and adds the response's optimizedCost and savings to
total_cost and total_saved; a non-200 status, or success false, returns the
error dict without raising and leaves all totals unchanged. -/
theorem agent_chat_totals (st : AgentState) (status : ℕ) (body : Option OptimizeEnvelope) :
    (∀ env d, body = some env → env.success = some true → env.data = some d →
      CostOptimizedAIAgent.chat st 200 body =
        .ok (⟨st.total_cost + d.optimizedCost, st.total_saved + d.savings, st.total_calls + 1⟩,
          .result d.optimizedResponse d.optimizedCost d.savings d.recommendedProvider)) ∧
    (status ≠ 200 → CostOptimizedAIAgent.chat st status body =
      .ok (st, .error "Failed to get response")) ∧
    (∀ env, body = some env → env.success = some false →
      CostOptimizedAIAgent.chat st 200 body =
        .ok (st, .error "Failed to get response")) := by
  refine ⟨?_, ?_, ?_⟩
  · intro env d hb hs hd
    simp [CostOptimizedAIAgent.chat, hb, hs, hd]
  · intro hst
    simp [CostOptimizedAIAgent.chat, hst]
  · intro env hb hs
    simp [CostOptimizedAIAgent.chat, hb, hs]

/-- C9 witness: a successful response with cost 2 and savings 3 from the
fresh agent, and a 500 response leaving the state unchanged. -/
theorem agent_chat_totals_witness :
    CostOptimizedAIAgent.chat CostOptimizedAIAgent.init 200
        (some ⟨some true, some ⟨"ok", 2, 3, "openai"⟩⟩) =
      .ok (⟨0 + 2, 0 + 3, 0 + 1⟩, .result "ok" 2 3 "openai") ∧
    CostOptimizedAIAgent.chat CostOptimizedAIAgent.init 500
        (some ⟨some true, some ⟨"ok", 2, 3, "openai"⟩⟩) =
      .ok (CostOptimizedAIAgent.init, .error "Failed to get response") :=
  ⟨(agent_chat_totals CostOptimizedAIAgent.init 200
      (some ⟨some true, some ⟨"ok", 2, 3, "openai"⟩⟩)).1 _ _ rfl rfl rfl,
   (agent_chat_totals CostOptimizedAIAgent.init 500
      (some ⟨some true, some ⟨"ok", 2, 3, "openai"⟩⟩)).2.1 (by norm_num)⟩

/-- C10: get_savings_report never divides by zero — when
total_cost + total_saved = 0 (the fresh agent included) the percentage is 0;
with nonnegative totals the percentage lies in [0, 100] and effective_cost
equals total_cost. -/
theorem savings_report_safe (st : AgentState) :
    (st.total_cost + st.total_saved = 0 →
      (CostOptimizedAIAgent.get_savings_report st).savings_percentage = 0) ∧
    ((CostOptimizedAIAgent.get_savings_report CostOptimizedAIAgent.init).savings_percentage
      = 0) ∧
    (0 ≤ st.total_cost → 0 ≤ st.total_saved →
      0 ≤ (CostOptimizedAIAgent.get_savings_report st).savings_percentage ∧
      (CostOptimizedAIAgent.get_savings_report st).savings_percentage ≤ 100 ∧
      (CostOptimizedAIAgent.get_savings_report st).effective_cost = st.total_cost) := by
  refine ⟨?_, ?_, ?_⟩
  · intro h
    simp [CostOptimizedAIAgent.get_savings_report, h]
  · simp [CostOptimizedAIAgent.get_savings_report, CostOptimizedAIAgent.init]
  · intro hc hs
    refine ⟨?_, ?_, rfl⟩
    · simp only [CostOptimizedAIAgent.get_savings_report]
      split_ifs with h
      · exact mul_nonneg (div_nonneg hs (by linarith)) (by norm_num)
      · exact le_refl 0
    · simp only [CostOptimizedAIAgent.get_savings_report]
      split_ifs with h
      · rw [div_mul_eq_mul_div, div_le_iff₀ h]
        nlinarith
      · norm_num

/-- C10 witness: an agent with zero totals after five calls — the guarded
percentage is 0 and the bounds hold. -/
theorem savings_report_safe_witness :
    (CostOptimizedAIAgent.get_savings_report ⟨0, 0, 5⟩).savings_percentage = 0 ∧
    (0 ≤ (CostOptimizedAIAgent.get_savings_report ⟨0, 0, 5⟩).savings_percentage ∧
      (CostOptimizedAIAgent.get_savings_report ⟨0, 0, 5⟩).savings_percentage ≤ 100 ∧
      (CostOptimizedAIAgent.get_savings_report ⟨0, 0, 5⟩).effective_cost = 0) :=
  ⟨(savings_report_safe ⟨0, 0, 5⟩).1 (by norm_num),
   (savings_report_safe ⟨0, 0, 5⟩).2.2 (by norm_num) (by norm_num)⟩
